import Mathlib

/-!
Verification development for the FruitsSearchAutomata automation server
(app.py).  The definitions below are shallow embeddings of the pure and
state-manipulating parts of the source: Python lists become Lean lists,
Python ints become Int or Nat as appropriate, the dictionaries keyed by
profile name become association lists, and the float progress field is
modelled over the rationals.  Each claim about the program is settled by
a theorem about these embeddings.
-/

/-- A progress record `{done, total}` as stored in `state["profile_progress"]`
and `state["mobile_progress"]`. -/
structure ProgEntry where
  done : Nat
  total : Nat
  deriving Repr, DecidableEq

/-! ## Query sequencer (`_build_queries`, app.py lines 331-338) -/

/-- The `while len(out) < count` loop of `_build_queries`: starting from
accumulator `out` and index `i`, append `base[i % len(base)]` (with `""`
standing for the unreachable out-of-range read) and increment `i` until
the accumulated length reaches `count`.  `count` is an `Int` because the
Python parameter is an unrestricted int. -/
def build_queries_go (base : List String) (count : Int) (out : List String) (i : Nat) :
    List String :=
  if h : (out.length : Int) < count then
    build_queries_go base count (out ++ [base.getD (i % base.length) ""]) (i + 1)
  else
    out
termination_by (count - out.length).toNat
decreasing_by
  simp only [List.length_append, List.length_singleton]
  omega

/-- Python slicing `l[:count]` for an int `count`: a nonnegative bound takes
a prefix, a negative bound counts back from the end, clamped at zero. -/
def pySliceTo (count : Int) (l : List String) : List String :=
  if 0 ≤ count then l.take count.toNat
  else l.take ((l.length : Int) + count).toNat

/-- `_build_queries(base, count)` from app.py: empty `base` short-circuits to
`[]`; otherwise the cycling loop runs and the result is sliced to `count`. -/
def build_queries (base : List String) (count : Int) : List String :=
  if base.isEmpty then [] else pySliceTo count (build_queries_go base count [] 0)

/-! ## Pacing controller (`_wait_if_paused` and `sleep_with_pause`,
app.py lines 311-328) -/

/-- The polling loop of `_wait_if_paused`.  `paused k` and `running k` are
the values of `state["is_paused"]` and `state["is_running"]` read under the
lock at the k-th poll of the run; between consecutive polls the loop sleeps
0.1s (one polling quantum).  `fuel` bounds how many polls are modelled;
`none` means the loop was still blocked after `fuel` polls.  The result is
the index of the poll at which the function returned. -/
def wait_if_paused_go (paused running : Nat → Bool) : Nat → Nat → Option Nat
  | 0, _ => none
  | fuel + 1, k =>
    if running k && paused k then wait_if_paused_go paused running fuel (k + 1)
    else some k

/-- The `while time.time() < end` loop of `sleep_with_pause`.  `slices` is
the number of at-most-0.1s slices remaining until `end`; the loop runs at
most that many iterations because every iteration sleeps a positive slice.
Each iteration reads `is_running` at poll index `k` and returns early at
that poll when it is false, otherwise runs `_wait_if_paused` starting at
the next poll index and then sleeps one slice.  The result is the poll
index at which the function returned, or `none` when an inner pause loop
exhausted `waitFuel`. -/
def sleep_with_pause_go (paused running : Nat → Bool) (waitFuel : Nat) :
    Nat → Nat → Option Nat
  | 0, k => some k
  | slices + 1, k =>
    if running k then
      match wait_if_paused_go paused running waitFuel (k + 1) with
      | none => none
      | some k2 => sleep_with_pause_go paused running waitFuel slices (k2 + 1)
    else some k

/-- Poll trace: a run that is paused from the start and never resumed. -/
def paused_trace : Nat → Bool := fun _ => true

/-- Poll trace: a run that is stopped from poll 3 on, so a stop is issued
while the pause of `paused_trace` is still active. -/
def running_trace : Nat → Bool := fun k => decide (k < 3)

/-! ## Browser process pool bookkeeping (`automation_worker`,
app.py lines 444-622) -/

/-- What one iteration of the per-profile loop of `automation_worker` does
to the process table: whether `launch_browser` returned a handle that was
appended (lines 470-472) and whether the mobile-UA fallback
`launch_mobile_browser` returned a handle that was appended
(lines 589-591).  The Playwright mobile path appends nothing. -/
structure ProfileRun where
  name : String
  desktopLaunch : Bool
  mobileFallbackLaunch : Bool
  deriving Repr, DecidableEq

/-- The worker-local process bookkeeping: `browser_processes` holds the
labels of the tracked handles, `completed_profiles` the names appended at
line 511. -/
structure PoolState where
  browser_processes : List String
  completed_profiles : List String
  deriving Repr, DecidableEq

/-- The fixed completed-profile cap of the pool policy (line 451). -/
def MAX_ACTIVE_BROWSERS : Nat := 2

/-- One profile iteration of `automation_worker`, restricted to its effect
on the process table: the desktop launch append (lines 470-472), the
completion append (line 511), the window-capping policy (lines 514-530:
when more than `MAX_ACTIVE_BROWSERS` profiles have completed, pop the
oldest handle if any is tracked and pop the oldest completed name), then
the mobile-UA fallback append (lines 589-591) when that path runs and the
launch succeeds. -/
def pool_profile_step (s : PoolState) (p : ProfileRun) : PoolState :=
  let procs1 := if p.desktopLaunch then s.browser_processes ++ [p.name]
                else s.browser_processes
  let comp1 := s.completed_profiles ++ [p.name]
  let procs2 := if comp1.length > MAX_ACTIVE_BROWSERS then
                  (if procs1 = [] then procs1 else procs1.drop 1)
                else procs1
  let comp2 := if comp1.length > MAX_ACTIVE_BROWSERS then comp1.drop 1 else comp1
  let procs3 := if p.mobileFallbackLaunch then procs2 ++ [p.name ++ " (mobile)"]
                else procs2
  { browser_processes := procs3, completed_profiles := comp2 }

/-- The process-table evolution over a whole run: fold of the per-profile
step from the empty initial table (lines 449-450). -/
def pool_run (ps : List ProfileRun) : PoolState :=
  ps.foldl pool_profile_step { browser_processes := [], completed_profiles := [] }

/-- A concrete run exhibiting a pool-cap violation: three level-2 profiles
with mobile enabled and Playwright unavailable, so every profile appends a
desktop handle and a mobile-UA fallback handle while the policy evicts at
most one handle per completion. -/
def pool_cex_runs : List ProfileRun :=
  [{ name := "Profile 1", desktopLaunch := true, mobileFallbackLaunch := true },
   { name := "Profile 2", desktopLaunch := true, mobileFallbackLaunch := true },
   { name := "Profile 3", desktopLaunch := true, mobileFallbackLaunch := true }]

/-! ## Shared run state and its mutations -/

/-- The fields of the global `state` dict (lines 58-72) that the worker and
the control endpoints touch.  `progress` (a Python float) is modelled over
the rationals. -/
structure RunState where
  is_running : Bool
  status : String
  progress : ℚ
  current_search : String
  current_profile : String
  completed : Nat
  total : Nat
  is_paused : Bool
  profile_progress : List (String × ProgEntry)
  profile_eligibility : List (String × Bool)
  mobile_enabled : Bool
  mobile_progress : List (String × ProgEntry)
  deriving Repr, DecidableEq

/-- The `finally` state reconciliation of `automation_worker`
(lines 639-644). -/
def teardown_state (s : RunState) : RunState :=
  { s with is_running := false,
           status := if s.completed ≥ s.total then "Automation completed"
                     else "Automation stopped",
           current_search := "",
           current_profile := "",
           is_paused := false }

/-- How the body of `automation_worker` (the `try` block, lines 453-622)
can finish: run to the end of the profile loop or break out of it (`ok`,
covering both normal completion and a requested stop), raise
`pyautogui.FailSafeException` (caught at line 624), or raise any other
exception (caught at line 626).  The payload is the shared state at that
point. -/
inductive BodyOutcome
  | ok (s : RunState)
  | failSafeExc (s : RunState)
  | otherExc (s : RunState)

/-- `automation_worker` as try/except/except/finally: whatever the body
does to the state and however it exits, the `finally` block
(lines 628-644) runs and reconciles the state. -/
def run_worker (body : RunState → BodyOutcome) (s : RunState) : RunState :=
  match body s with
  | .ok t => teardown_state t
  | .failSafeExc t => teardown_state t
  | .otherExc t => teardown_state t

/-- The clamped progress increment
`entry["done"] = min(entry["done"] + 1, entry["total"])` used for the
desktop entry (line 502) and the mobile entry (lines 575 and 617). -/
def clamp_inc (e : ProgEntry) : ProgEntry :=
  { e with done := min (e.done + 1) e.total }

/-- The progress recomputation of lines 498-499:
`total = max(1, state["total"]); state["progress"] = (completed/total)*100`. -/
def update_progress (completed total : Nat) : ℚ :=
  ((completed : ℚ) / ((max 1 total : Nat) : ℚ)) * 100

/-! ## `start_automation` quota computation (app.py lines 744-764) -/

/-- A selected profile as seen by `start_automation`: its resolved name and
the raw integer level stored for it in profile_info.json. -/
structure ProfileReq where
  name : String
  level : Int
  deriving Repr, DecidableEq

/-- The level normalisation performed by `get_or_init_profile` (lines 119
and 124): any stored level other than 2 becomes 1. -/
def norm_level (l : Int) : Int := if l = 2 then 2 else 1

/-- The accumulators filled by the per-profile loop of `start_automation`. -/
structure StartResult where
  profile_progress : List (String × ProgEntry)
  profile_eligibility : List (String × Bool)
  mobile_progress : List (String × ProgEntry)
  total_searches : Nat
  deriving Repr, DecidableEq

/-- The quota loop of `start_automation` (lines 752-763): for each selected
profile, normalise its stored level, set `desktop_total` to 10 for level 1
and 32 otherwise, mark it mobile-eligible iff the level is 2, accumulate
`total_searches`, and create a mobile progress entry only when mobile is
enabled for the run, the profile is eligible and `MOBILE_SEARCH_COUNT` is
positive.  `me` is the requested `mobileEnabled` flag and `mc` the
env-derived `MOBILE_SEARCH_COUNT`. -/
def start_quotas (me : Bool) (mc : Int) : List ProfileReq → StartResult
  | [] => { profile_progress := [], profile_eligibility := [],
            mobile_progress := [], total_searches := 0 }
  | p :: rest =>
    let lvl := norm_level p.level
    let desktop_total : Nat := if lvl = 1 then 10 else 32
    let mobile_ok : Bool := decide (lvl = 2)
    let r := start_quotas me mc rest
    { profile_progress := (p.name, ⟨0, desktop_total⟩) :: r.profile_progress,
      profile_eligibility := (p.name, mobile_ok) :: r.profile_eligibility,
      mobile_progress :=
        if me && mobile_ok && decide (0 < mc) then
          (p.name, ⟨0, mc.toNat⟩) :: r.mobile_progress
        else r.mobile_progress,
      total_searches := desktop_total + r.total_searches }

/-! ## Worker mobile pass gating (app.py lines 532-622) -/

/-- The `mobile_ok` test at line 539: mobile must be enabled for the run,
this profile must be marked eligible, and `MOBILE_SEARCH_COUNT` must be
positive. -/
def worker_mobile_ok (mobile_enabled elig_mobile : Bool) (mc : Int) : Bool :=
  mobile_enabled && elig_mobile && decide (0 < mc)

/-- Association list lookup on a progress map (Python `dict.get`). -/
def prog_find (name : String) : List (String × ProgEntry) → Option ProgEntry
  | [] => none
  | (n, e) :: rest => if n = name then some e else prog_find name rest

/-- In-place update of one entry of a progress map. -/
def prog_update (name : String) (f : ProgEntry → ProgEntry) :
    List (String × ProgEntry) → List (String × ProgEntry)
  | [] => []
  | (n, e) :: rest =>
    if n = name then (n, f e) :: rest else (n, e) :: prog_update name f rest

/-- Python `dict.setdefault(name, d)` on a progress map. -/
def prog_setdefault (name : String) (d : ProgEntry) (m : List (String × ProgEntry)) :
    List (String × ProgEntry) :=
  match prog_find name m with
  | some _ => m
  | none => m ++ [(name, d)]

/-- The per-query mobile progress update (lines 571-575 and 613-617):
`setdefault` the entry to `{done: 0, total: MOBILE_SEARCH_COUNT}`, then
apply the clamped increment to it. -/
def mobile_bump (name : String) (mcNat : Nat) (m : List (String × ProgEntry)) :
    List (String × ProgEntry) :=
  prog_update name clamp_inc (prog_setdefault name ⟨0, mcNat⟩ m)

/-- The mobile phase of one profile iteration of the worker, restricted to
its effect on `state["mobile_progress"]`: when `mobile_ok` is false the
worker hits `continue` (lines 540-541) and the map is untouched; otherwise
the entry is created when absent (lines 543-545) and then `k` mobile query
iterations each run `mobile_bump` (`k` is however many mobile queries
execute before a stop, on either the Playwright or the fallback path). -/
def worker_mobile_phase (me elig : Bool) (mc : Int) (name : String) (k : Nat)
    (mprog : List (String × ProgEntry)) : List (String × ProgEntry) :=
  if worker_mobile_ok me elig mc = false then mprog
  else (mobile_bump name mc.toNat)^[k] (prog_setdefault name ⟨0, mc.toNat⟩ mprog)

/-! ## Desktop query iteration (app.py lines 487-509) -/

/-- The counters touched by one desktop query iteration: the worker-local
`completed`, the current profile entry of `state["profile_progress"]`, and
the persisted `totalSearchPC` counter of profile_info.json. -/
structure DesktopIterState where
  completed : Nat
  entry : ProgEntry
  persisted : Nat
  deriving Repr, DecidableEq

/-- One desktop query iteration, lines 487-507: the pyautogui actions are
wrapped in try/except and touch no counter whether or not they raise
(`gui_raises`); afterwards `completed += 1`, the profile entry gets the
clamped increment (lines 495-502), and
`bump_profile_progress(name, is_pc=True, delta=1)` adds one to the
persisted counter (lines 136-142 and 504-507; the store write is modelled
as succeeding). -/
def desktop_query_iteration (gui_raises : Bool) (s : DesktopIterState) :
    DesktopIterState :=
  let _ := gui_raises
  { completed := s.completed + 1,
    entry := clamp_inc s.entry,
    persisted := s.persisted + 1 }

/-! ## Control endpoints (app.py lines 796-818) -/

/-- `/api/stop` (lines 796-802): mutate only when a run is active; always
acknowledge with "Stopping". -/
def stop_automation (s : RunState) : RunState × String :=
  if s.is_running then
    ({ s with is_running := false, status := "Stopping automation..." }, "Stopping")
  else (s, "Stopping")

/-- `/api/pause` (lines 804-810): mutate only when a run is active; always
acknowledge with "Paused". -/
def pause_automation (s : RunState) : RunState × String :=
  if s.is_running then
    ({ s with is_paused := true, status := "Paused" }, "Paused")
  else (s, "Paused")

/-- `/api/resume` (lines 812-818): mutate only when a run is active; always
acknowledge with "Resumed". -/
def resume_automation (s : RunState) : RunState × String :=
  if s.is_running then
    ({ s with is_paused := false, status := "Resuming..." }, "Resumed")
  else (s, "Resumed")

/-- A concrete idle run state (the literal initial `state` dict of
lines 58-72), used to instantiate the frame theorems. -/
def idle_state : RunState :=
  { is_running := false, status := "Ready", progress := 0,
    current_search := "", current_profile := "", completed := 0, total := 0,
    is_paused := false, profile_progress := [], profile_eligibility := [],
    mobile_enabled := false, mobile_progress := [] }

/-! ## Helper lemmas -/

lemma build_queries_go_eq (base : List String) (count : Int) :
    ∀ (m : Nat) (out : List String) (i : Nat), count.toNat - out.length ≤ m →
      build_queries_go base count out i =
        out ++ (List.range (count.toNat - out.length)).map
          (fun j => base.getD ((i + j) % base.length) "") := by
  intro m
  induction m with
  | zero =>
    intro out i h
    rw [build_queries_go, dif_neg (by omega)]
    have h0 : count.toNat - out.length = 0 := by omega
    simp [h0]
  | succ m ih =>
    intro out i h
    rw [build_queries_go]
    by_cases hc : (out.length : Int) < count
    · rw [dif_pos hc]
      have hlen : (out ++ [base.getD (i % base.length) ""]).length = out.length + 1 := by
        simp
      have h1 : count.toNat - (out ++ [base.getD (i % base.length) ""]).length ≤ m := by
        rw [hlen]; omega
      rw [ih _ (i + 1) h1, hlen]
      have hd : count.toNat - out.length = (count.toNat - (out.length + 1)) + 1 := by
        omega
      rw [hd, List.range_succ_eq_map]
      simp only [List.map_cons, List.map_map, Nat.add_zero, List.append_assoc,
        List.cons_append, List.nil_append]
      congr 1
      have hf : (fun j => base.getD ((i + 1 + j) % base.length) "") =
          ((fun j => base.getD ((i + j) % base.length) "") ∘ Nat.succ) := by
        funext j
        simp only [Function.comp_apply]
        congr 2
        omega
      rw [hf]
    · rw [dif_neg hc]
      have h0 : count.toNat - out.length = 0 := by omega
      simp [h0]

lemma wait_if_paused_go_some (paused running : Nat → Bool) :
    ∀ (fuel k j : Nat), wait_if_paused_go paused running fuel k = some j →
      (running j && paused j) = false ∧ k ≤ j ∧
      ∀ i, k ≤ i → i < j → (running i && paused i) = true := by
  intro fuel
  induction fuel with
  | zero => intro k j h; simp [wait_if_paused_go] at h
  | succ fuel ih =>
    intro k j h
    rw [wait_if_paused_go] at h
    by_cases hc : (running k && paused k) = true
    · rw [if_pos hc] at h
      obtain ⟨h1, h2, h3⟩ := ih (k + 1) j h
      refine ⟨h1, by omega, ?_⟩
      intro i hki hij
      by_cases hik : i = k
      · rw [hik]; exact hc
      · exact h3 i (by omega) hij
    · rw [if_neg hc] at h
      obtain rfl : k = j := by simpa using h
      exact ⟨by simpa using hc, le_refl k, fun i h1 h2 => by omega⟩

lemma wait_if_paused_go_unblocks (paused running : Nat → Bool) :
    ∀ (fuel k n : Nat), k ≤ n → n < k + fuel → (running n && paused n) = false →
      ∃ j, j ≤ n ∧ wait_if_paused_go paused running fuel k = some j := by
  intro fuel
  induction fuel with
  | zero => intro k n h1 h2 h3; omega
  | succ fuel ih =>
    intro k n h1 h2 h3
    rw [wait_if_paused_go]
    by_cases hc : (running k && paused k) = true
    · have hkn : k ≠ n := by
        intro he; rw [he] at hc; rw [hc] at h3; simp at h3
      obtain ⟨j, hj1, hj2⟩ := ih (k + 1) n (by omega) (by omega) h3
      exact ⟨j, hj1, by rw [if_pos hc]; exact hj2⟩
    · exact ⟨k, h1, by rw [if_neg hc]⟩

lemma clamp_inc_iterate (t k : Nat) :
    clamp_inc^[k] ⟨0, t⟩ = ⟨min k t, t⟩ := by
  induction k with
  | zero => simp
  | succ k ih =>
    rw [Function.iterate_succ_apply', ih]
    simp only [clamp_inc]
    congr 1
    omega

lemma pool_step_invariant (s : PoolState) (p : ProfileRun)
    (hp : p.mobileFallbackLaunch = false)
    (h1 : s.browser_processes.length ≤ s.completed_profiles.length)
    (h2 : s.completed_profiles.length ≤ MAX_ACTIVE_BROWSERS) :
    (pool_profile_step s p).browser_processes.length ≤
      (pool_profile_step s p).completed_profiles.length ∧
    (pool_profile_step s p).completed_profiles.length ≤ MAX_ACTIVE_BROWSERS := by
  simp only [pool_profile_step, hp, MAX_ACTIVE_BROWSERS, Bool.false_eq_true,
    if_false] at *
  split_ifs <;> simp_all [List.length_append, List.length_drop] <;> omega

lemma pool_run_invariant (ps : List ProfileRun)
    (h : ∀ p ∈ ps, p.mobileFallbackLaunch = false) :
    ∀ s : PoolState, s.browser_processes.length ≤ s.completed_profiles.length →
      s.completed_profiles.length ≤ MAX_ACTIVE_BROWSERS →
      (ps.foldl pool_profile_step s).browser_processes.length ≤
        (ps.foldl pool_profile_step s).completed_profiles.length ∧
      (ps.foldl pool_profile_step s).completed_profiles.length ≤ MAX_ACTIVE_BROWSERS := by
  induction ps with
  | nil => intro s h1 h2; exact ⟨h1, h2⟩
  | cons p rest ih =>
    intro s h1 h2
    have hp : p.mobileFallbackLaunch = false := h p (List.mem_cons_self p rest)
    obtain ⟨g1, g2⟩ := pool_step_invariant s p hp h1 h2
    exact ih (fun q hq => h q (List.mem_cons_of_mem p hq)) (pool_profile_step s p) g1 g2

/-! ## Claim theorems -/

/-- Claim C1: for every non-empty `base` and every `count ≥ 0`,
`_build_queries(base, count)` returns a list of length exactly `count`
whose i-th element is `base[i % len(base)]`; for an empty `base` it
returns the empty list for every `count`. -/
theorem build_queries_spec (base : List String) (count : Int) :
    (base = [] → build_queries base count = []) ∧
    (base ≠ [] → 0 ≤ count →
      (build_queries base count).length = count.toNat ∧
      ∀ i, i < count.toNat →
        (build_queries base count).getD i "" = base.getD (i % base.length) "") := by
  constructor
  · intro hb; simp [build_queries, hb]
  · intro hb hc
    have hgo := build_queries_go_eq base count count.toNat [] 0 (by simp)
    simp only [List.length_nil, Nat.sub_zero, List.nil_append, Nat.zero_add] at hgo
    have hbe : base.isEmpty = false := by
      cases base with
      | nil => exact absurd rfl hb
      | cons a l => rfl
    have hq : build_queries base count =
        (List.range count.toNat).map (fun j => base.getD (j % base.length) "") := by
      rw [build_queries, hbe, if_neg (by simp), pySliceTo, if_pos hc, hgo]
      rw [List.take_of_length_le (by simp)]
    rw [hq]
    constructor
    · simp
    · intro i hi
      rw [List.getD_eq_getElem?_getD, List.getElem?_map, List.getElem?_range hi]
      rfl

/-- Witness for C1 at `base = ["apple", "banana"]`, `count = 5`. -/
theorem build_queries_spec_witness :
    (build_queries ["apple", "banana"] 5).length = (5 : Int).toNat ∧
    (build_queries ["apple", "banana"] 5).getD 4 "" =
      ["apple", "banana"].getD (4 % ["apple", "banana"].length) "" := by
  have h := (build_queries_spec ["apple", "banana"] 5).2 (by simp) (by norm_num)
  exact ⟨h.1, h.2 4 (by norm_num)⟩

/-- Claim C2 as stated is false on the code: in the concrete three-profile
run `pool_cex_runs` every profile appends both a desktop handle and a
mobile-UA fallback handle while the pool policy evicts at most one handle
per completion, so after the third profile completes (the completed count
has exceeded the cap and the eviction has run) five handles are tracked,
exceeding `MAX_ACTIVE_BROWSERS = 2`. -/
theorem pool_cap_counterexample :
    MAX_ACTIVE_BROWSERS < (pool_run pool_cex_runs).browser_processes.length := by
  decide

/-- Claim C2 (amended): in a run in which no mobile-UA fallback window is
launched (only the desktop launches append handles), the number of tracked
process handles never exceeds `MAX_ACTIVE_BROWSERS` after any sequence of
profile completions. -/
theorem pool_cap_desktop_only (ps : List ProfileRun)
    (h : ∀ p ∈ ps, p.mobileFallbackLaunch = false) :
    (pool_run ps).browser_processes.length ≤ MAX_ACTIVE_BROWSERS := by
  have := pool_run_invariant ps h
    { browser_processes := [], completed_profiles := [] } (by simp) (by simp [MAX_ACTIVE_BROWSERS])
  exact le_trans (this.1) (this.2)

/-- Witness for the amended C2 at a concrete four-profile desktop-only run. -/
theorem pool_cap_desktop_only_witness :
    (pool_run
      [{ name := "Profile 1", desktopLaunch := true, mobileFallbackLaunch := false },
       { name := "Profile 2", desktopLaunch := true, mobileFallbackLaunch := false },
       { name := "Profile 3", desktopLaunch := true, mobileFallbackLaunch := false },
       { name := "Profile 4", desktopLaunch := true, mobileFallbackLaunch := false }]
     ).browser_processes.length ≤ MAX_ACTIVE_BROWSERS :=
  pool_cap_desktop_only _ (by decide)

/-- Claim C3: the teardown phase runs on every exit path of
`automation_worker` (normal completion, stop, fail-safe interrupt, or any
other exception), and afterwards the shared state has `is_running` false,
`is_paused` false, empty current search and profile, and the "completed"
status message exactly when `completed >= total`, else the "stopped"
message. -/
theorem worker_teardown_postcondition (body : RunState → BodyOutcome) (s : RunState) :
    (run_worker body s).is_running = false ∧
    (run_worker body s).is_paused = false ∧
    (run_worker body s).current_search = "" ∧
    (run_worker body s).current_profile = "" ∧
    (run_worker body s).status =
      (if (run_worker body s).completed ≥ (run_worker body s).total
       then "Automation completed" else "Automation stopped") := by
  cases hb : body s <;> simp [run_worker, hb, teardown_state]

/-- Claim C4: `_wait_if_paused` blocks only while `is_paused` and
`is_running` both hold (every poll strictly before the returning one saw
both true), returns at the first poll at which either flag has flipped —
so a stop issued during an active pause unblocks it within one polling
quantum — and `sleep_with_pause` returns early, at the very poll, once
`is_running` is false. -/
theorem pacing_controller_spec (paused running : Nat → Bool) (fuel k j n : Nat) :
    (wait_if_paused_go paused running fuel k = some j →
      (running j && paused j) = false ∧
      ∀ i, k ≤ i → i < j → (running i && paused i) = true) ∧
    (k ≤ n → n < k + fuel → (running n && paused n) = false →
      ∃ j2, j2 ≤ n ∧ wait_if_paused_go paused running fuel k = some j2) ∧
    (∀ slices waitFuel, running k = false →
      sleep_with_pause_go paused running waitFuel (slices + 1) k = some k) := by
  refine ⟨?_, ?_, ?_⟩
  · intro h
    obtain ⟨h1, _, h3⟩ := wait_if_paused_go_some paused running fuel k j h
    exact ⟨h1, h3⟩
  · intro h1 h2 h3
    exact wait_if_paused_go_unblocks paused running fuel k n h1 h2 h3
  · intro slices waitFuel h
    rw [sleep_with_pause_go, if_neg (by simp [h])]

/-- Witness for C4: with the run paused throughout and a stop taking effect
at poll 3, the pause loop started at poll 0 unblocks by poll 3, and the
interruptible sleep polled at index 3 returns immediately. -/
theorem pacing_controller_spec_witness :
    (∃ j2, j2 ≤ 3 ∧ wait_if_paused_go paused_trace running_trace 10 0 = some j2) ∧
    sleep_with_pause_go paused_trace running_trace 7 (4 + 1) 3 = some 3 := by
  refine ⟨(pacing_controller_spec paused_trace running_trace 10 0 0 3).2.1
      (by decide) (by decide) (by decide), ?_⟩
  exact (pacing_controller_spec paused_trace running_trace 10 3 0 0).2.2 4 7 (by decide)

/-- Claim C5: each progress increment sets `done` to
`min(done + 1, total)`, so starting from the run-start entry
`{done: 0, total: t}` the `done` value after `k` increments is
`min k t` — monotonically non-decreasing in `k` and never exceeding
`total`, even when more than `total` increments are issued. -/
theorem done_clamped_monotone (t k k2 : Nat) (h : k ≤ k2) :
    (clamp_inc^[k] ⟨0, t⟩).done = min k t ∧
    (clamp_inc^[k] ⟨0, t⟩).done ≤ (clamp_inc^[k2] ⟨0, t⟩).done ∧
    (clamp_inc^[k] ⟨0, t⟩).done ≤ t := by
  rw [clamp_inc_iterate, clamp_inc_iterate]
  refine ⟨rfl, ?_, ?_⟩
  · show min k t ≤ min k2 t
    omega
  · show min k t ≤ t
    omega

/-- Witness for C5 at `t = 3`, `k = 2`, `k2 = 7`. -/
theorem done_clamped_monotone_witness :
    (clamp_inc^[2] ⟨0, 3⟩).done = min 2 3 ∧
    (clamp_inc^[2] ⟨0, 3⟩).done ≤ (clamp_inc^[7] ⟨0, 3⟩).done ∧
    (clamp_inc^[2] ⟨0, 3⟩).done ≤ 3 :=
  done_clamped_monotone 3 2 7 (by norm_num)

/-- Claim C6: the progress recomputation divides by `max(1, total)`, so for
a run with total `T ≥ 1` and `k ≤ T` completed desktop queries the stored
progress equals `(k / T) * 100` and lies between 0 and 100. -/
theorem progress_percent_spec (k T : Nat) (h1 : 1 ≤ T) (h2 : k ≤ T) :
    update_progress k T = ((k : ℚ) / (T : ℚ)) * 100 ∧
    0 ≤ update_progress k T ∧ update_progress k T ≤ 100 := by
  have hmax : max 1 T = T := Nat.max_eq_right h1
  have hT : (0 : ℚ) < (T : ℚ) := by exact_mod_cast h1
  have heq : update_progress k T = ((k : ℚ) / (T : ℚ)) * 100 := by
    rw [update_progress, hmax]
  refine ⟨heq, ?_, ?_⟩
  · rw [heq]
    positivity
  · rw [heq]
    have hk : (k : ℚ) / (T : ℚ) ≤ 1 := by
      rw [div_le_one hT]
      exact_mod_cast h2
    nlinarith
/-- Witness for C6 at `k = 2`, `T = 4`. -/
theorem progress_percent_spec_witness :
    update_progress 2 4 = ((2 : ℚ) / (4 : ℚ)) * 100 ∧
    0 ≤ update_progress 2 4 ∧ update_progress 2 4 ≤ 100 :=
  progress_percent_spec 2 4 (by norm_num) (by norm_num)

/-- Claim C7: at run start each selected profile gets a desktop quota of 10
at (normalised) level 1 and 32 at level 2 (the only other level), is
mobile-eligible iff its level is 2, the run total is the sum of the
per-profile desktop quotas, and a mobile progress entry carrying the
configured mobile total is created exactly for the eligible profiles when
mobile is enabled and the configured count is positive. -/
theorem start_quotas_spec (profiles : List ProfileReq) (me : Bool) (mc : Int) :
    (∀ l : Int, norm_level l = 1 ∨ norm_level l = 2) ∧
    (start_quotas me mc profiles).profile_progress =
      profiles.map (fun p =>
        (p.name, ProgEntry.mk 0 (if norm_level p.level = 1 then 10 else 32))) ∧
    (start_quotas me mc profiles).profile_eligibility =
      profiles.map (fun p => (p.name, decide (norm_level p.level = 2))) ∧
    (start_quotas me mc profiles).total_searches =
      (profiles.map (fun p => if norm_level p.level = 1 then (10 : Nat) else 32)).sum ∧
    (start_quotas me mc profiles).mobile_progress =
      (profiles.filter
        (fun p => me && decide (norm_level p.level = 2) && decide (0 < mc))).map
        (fun p => (p.name, ProgEntry.mk 0 mc.toNat)) := by
  refine ⟨?_, ?_⟩
  · intro l
    by_cases hl : l = 2
    · right; simp [norm_level, hl]
    · left; simp [norm_level, hl]
  · induction profiles with
    | nil => simp [start_quotas]
    | cons p rest ih =>
      obtain ⟨ih1, ih2, ih3, ih4⟩ := ih
      refine ⟨?_, ?_, ?_, ?_⟩
      · simp [start_quotas, ih1]
      · simp [start_quotas, ih2]
      · simp [start_quotas, ih3]
      · simp only [start_quotas, List.filter_cons]
        by_cases hcond : (me && decide (norm_level p.level = 2) && decide (0 < mc)) = true
        · simp [hcond, ih4]
        · simp [hcond, ih4]

/-- Claim C8: the worker runs a mobile pass for a profile iff mobile mode
is enabled for the run, the profile is marked mobile-eligible and the
configured mobile search count is positive; when any of the three
conditions fails it proceeds to the next profile leaving the mobile
progress map untouched. -/
theorem mobile_pass_gate_spec (me elig : Bool) (mc : Int) (name : String) (k : Nat)
    (mprog : List (String × ProgEntry)) :
    (worker_mobile_ok me elig mc = true ↔ (me = true ∧ elig = true ∧ 0 < mc)) ∧
    (worker_mobile_ok me elig mc = false →
      worker_mobile_phase me elig mc name k mprog = mprog) := by
  constructor
  · simp [worker_mobile_ok, and_assoc]
  · intro h
    simp [worker_mobile_phase, h]

/-- Witness for C8: an ineligible profile (mobile enabled, eligibility
false, positive count) leaves the mobile progress map unchanged. -/
theorem mobile_pass_gate_spec_witness :
    worker_mobile_phase true false 20 "Default" 5 [] = [] :=
  (mobile_pass_gate_spec true false 20 "Default" 5 []).2 (by decide)

/-- Claim C9: a desktop query iteration that runs advances the worker
`completed` counter, the per-profile `done` counter (by its clamped
increment, hence by exactly one while the quota is not yet met) and the
persisted daily counter exactly once, and its effect on the counters is
identical whether or not the pyautogui action raised. -/
theorem desktop_iteration_counters (g : Bool) (s : DesktopIterState)
    (h : s.entry.done < s.entry.total) :
    (desktop_query_iteration g s).completed = s.completed + 1 ∧
    (desktop_query_iteration g s).entry.done = s.entry.done + 1 ∧
    (desktop_query_iteration g s).entry.total = s.entry.total ∧
    (desktop_query_iteration g s).persisted = s.persisted + 1 ∧
    desktop_query_iteration g s = desktop_query_iteration (!g) s := by
  refine ⟨rfl, ?_, rfl, rfl, rfl⟩
  simp only [desktop_query_iteration, clamp_inc]
  omega

/-- Witness for C9 at a fresh profile entry and a raising GUI action. -/
theorem desktop_iteration_counters_witness :
    (desktop_query_iteration true ⟨0, ⟨0, 10⟩, 0⟩).completed = 0 + 1 ∧
    (desktop_query_iteration true ⟨0, ⟨0, 10⟩, 0⟩).entry.done = 0 + 1 ∧
    (desktop_query_iteration true ⟨0, ⟨0, 10⟩, 0⟩).entry.total = 10 ∧
    (desktop_query_iteration true ⟨0, ⟨0, 10⟩, 0⟩).persisted = 0 + 1 ∧
    desktop_query_iteration true ⟨0, ⟨0, 10⟩, 0⟩ =
      desktop_query_iteration (!true) ⟨0, ⟨0, 10⟩, 0⟩ :=
  desktop_iteration_counters true ⟨0, ⟨0, 10⟩, 0⟩ (by norm_num)

/-- Claim C10: when no run is active, the stop, pause and resume endpoints
leave the shared state exactly as it was and still return their
acknowledgement messages. -/
theorem endpoints_frame_when_idle (s : RunState) (h : s.is_running = false) :
    stop_automation s = (s, "Stopping") ∧
    pause_automation s = (s, "Paused") ∧
    resume_automation s = (s, "Resumed") := by
  simp [stop_automation, pause_automation, resume_automation, h]

/-- Witness for C10 at the literal initial idle state. -/
theorem endpoints_frame_when_idle_witness :
    stop_automation idle_state = (idle_state, "Stopping") ∧
    pause_automation idle_state = (idle_state, "Paused") ∧
    resume_automation idle_state = (idle_state, "Resumed") :=
  endpoints_frame_when_idle idle_state rfl
